import Mathlib

/-!
Verification of the input-event engine of the `example-teensy41-03-buttons`
firmware example.  The example's own code (`src/main.cpp`) supplies the
configuration constants, the `MainContext` requirements and the five input
bindings with their actions; the engine components it drives (debounce
filter, gesture classifier, binding registry, capability gate) live in the
`oc` framework headers and are modelled here from the specification,
sections 4.1-4.5.
-/

namespace OCButtons

-- ═══════════════════════════════════════════════════════════════════════
-- Configuration constants, from src/main.cpp `namespace Config`
-- ═══════════════════════════════════════════════════════════════════════

namespace Config

def MIDI_CHANNEL : Nat := 0

def BUTTON1_CC : Nat := 20

def BUTTON2_CC : Nat := 21

def LONG_PRESS_MS : Nat := 500

def DOUBLE_TAP_MS : Nat := 300

def DEBOUNCE_MS : Nat := 5

end Config

-- ═══════════════════════════════════════════════════════════════════════
-- Debounce filter (spec section 4.1)
-- ═══════════════════════════════════════════════════════════════════════

/-- Modelled from the spec: per-input debounce filter state (section 4.1);
the `oc` framework implementation is not part of this repository's sources.
`lastRaw` is the raw level of the previous tick (the candidate level),
`candTime` the candidate-change timestamp, `debounced` the committed
stable level. -/
structure DebounceState where
  lastRaw : Bool
  candTime : Nat
  debounced : Bool
deriving DecidableEq, Repr

/-- Modelled from the spec: one debounce tick (section 4.1).  If the raw
level differs from the last-seen raw level, record a candidate change; if
it equals the previous tick's raw level and the elapsed time since the
candidate timestamp is at least `D`, commit the candidate level. -/
def debStep (D : Nat) (s : DebounceState) (now : Nat) (raw : Bool) : DebounceState :=
  if raw ≠ s.lastRaw then
    { s with lastRaw := raw, candTime := now }
  else if D ≤ now - s.candTime then
    { s with debounced := raw }
  else
    s

/-- Fold `debStep` over a trace of `(timestamp, raw level)` samples. -/
def debRun (D : Nat) (s : DebounceState) (tr : List (Nat × Bool)) : DebounceState :=
  tr.foldl (fun s p => debStep D s p.1 p.2) s

/-- A debounce state resting stably at level `v` since time `t`. -/
def mkDebounce (v : Bool) (t : Nat) : DebounceState :=
  ⟨v, t, v⟩

/-- `quiet D v cur cand tr` says the raw trace `tr` never holds a level
other than the stable level `v` for `D` or more milliseconds: whenever a
sample repeats the current run's level `cur` (a run that began at time
`cand`) and that level is not `v`, the elapsed time is still below `D`.
This is a property of the raw signal alone, relative to the initial
stable level. -/
def quiet (D : Nat) (v : Bool) (cur : Bool) (cand : Nat) : List (Nat × Bool) → Bool
  | [] => true
  | (t, r) :: rest =>
    if r = cur then
      ((r == v) || decide (t - cand < D)) && quiet D v cur cand rest
    else
      quiet D v r t rest

/-- Invariant behind the no-glitch property: from any state whose
debounced level is `v`, a `quiet` trace never moves the debounced level. -/
theorem debRun_quiet (D : Nat) (v : Bool) :
    ∀ (tr : List (Nat × Bool)) (cur : Bool) (cand : Nat),
      quiet D v cur cand tr = true →
      (debRun D ⟨cur, cand, v⟩ tr).debounced = v := by
  intro tr
  induction tr with
  | nil => intro cur cand _; rfl
  | cons p rest ih =>
    intro cur cand hq
    obtain ⟨t, r⟩ := p
    by_cases hr : r = cur
    · simp only [quiet, if_pos hr, Bool.and_eq_true, Bool.or_eq_true,
        beq_iff_eq, decide_eq_true_eq] at hq
      obtain ⟨hcase, hrest⟩ := hq
      by_cases hD : D ≤ t - cand
      · have hrv : r = v := by
          rcases hcase with h | h
          · exact h
          · omega
        have hstep : debStep D ⟨cur, cand, v⟩ t r = ⟨cur, cand, v⟩ := by
          subst hr
          simp [debStep, hD, hrv]
        have := ih cur cand hrest
        simpa [debRun, hstep] using this
      · have hstep : debStep D ⟨cur, cand, v⟩ t r = ⟨cur, cand, v⟩ := by
          subst hr
          simp [debStep, hD]
        have := ih cur cand hrest
        simpa [debRun, hstep] using this
    · simp only [quiet, if_neg hr] at hq
      have hstep : debStep D ⟨cur, cand, v⟩ t r = ⟨r, t, v⟩ := by
        simp [debStep, hr]
      have := ih r t hq
      simpa [debRun, hstep] using this

/-- C4: for every raw-level trace whose departures from the initial
stable level `v` are always shorter than the debounce duration `D`
(`quiet` — the raw level oscillates faster than `D`), the debounced level
never changes from `v`. -/
theorem debounce_no_glitch (D : Nat) (v : Bool) (t0 : Nat)
    (tr : List (Nat × Bool)) (h : quiet D v v t0 tr = true) :
    (debRun D (mkDebounce v t0) tr).debounced = v :=
  debRun_quiet D v tr v t0 h

/-- C4 witness: with `D = 5` and initial stable level `false`, a raw
level oscillating every 2 ms never commits. -/
theorem debounce_no_glitch_witness :
    quiet 5 false false 0 [(2, true), (4, false), (6, true), (8, false), (9, true)] = true ∧
    (debRun 5 (mkDebounce false 0)
      [(2, true), (4, false), (6, true), (8, false), (9, true)]).debounced = false :=
  ⟨by decide, debounce_no_glitch 5 false 0
    [(2, true), (4, false), (6, true), (8, false), (9, true)] (by decide)⟩

-- ═══════════════════════════════════════════════════════════════════════
-- Gesture classifier (spec section 4.2)
-- ═══════════════════════════════════════════════════════════════════════

/-- The four gesture kinds of the engine's vocabulary. -/
inductive Gesture where
  | press
  | release
  | longPress
  | doubleTap
deriving DecidableEq, Repr

/-- The classifier's timing thresholds, configured process-wide in
`setup()` via `AppBuilder::inputConfig`. -/
structure InputTimingConfig where
  longPressMs : Nat
  doubleTapWindowMs : Nat
deriving DecidableEq, Repr

/-- The configuration built in `setup()` of src/main.cpp. -/
def cfg0 : InputTimingConfig :=
  ⟨Config.LONG_PRESS_MS, Config.DOUBLE_TAP_MS⟩

/-- Modelled from the spec: the classifier phases of section 4.2; the
`oc` framework implementation is not part of this repository's sources. -/
inductive Phase where
  | idle
  | pressed
  | pressedAwaitingRelease
  | waitingForSecondTap
deriving DecidableEq, Repr

/-- Modelled from the spec: per-button classifier state (sections 3 and
4.2).  `pressStart` is the timestamp of the most recent press-start,
`tapTime` the timestamp of the pending first short release (for
double-tap windowing), and `secondTap` records, while in `pressed`,
whether the ongoing press arrived inside the double-tap window of a prior
qualifying release. -/
structure ClassifierState where
  phase : Phase
  pressStart : Nat
  tapTime : Nat
  secondTap : Bool
deriving DecidableEq, Repr

/-- The classifier's initial (idle) state. -/
def initClassifier : ClassifierState :=
  ⟨.idle, 0, 0, false⟩

/-- Modelled from the spec: one classifier tick (section 4.2), driven by
the debounced level `active` and the current time `now`.  Emits the
gestures completed on this tick:
* idle, rising edge: emit `press`, record press-start;
* pressed, still active, elapsed ≥ `longPressMs`: emit `longPress` once,
  move to `pressedAwaitingRelease`;
* pressed, falling edge of a short press: emit `doubleTap` (suppressing
  the plain `release`) when this press was the second tap of a window,
  otherwise emit `release` and open the double-tap window;
* pressed, falling edge of a long press: emit `release`, back to idle (a
  long press never participates in double-tap correlation);
* pressedAwaitingRelease, falling edge: emit `release`, back to idle;
* waitingForSecondTap, rising edge: emit `press`, marking the new press
  as a second tap exactly when it arrives within `doubleTapWindowMs` of
  the pending release; window expiry returns to idle with no event. -/
def classifyStep (cfg : InputTimingConfig) (s : ClassifierState) (now : Nat)
    (active : Bool) : ClassifierState × List Gesture :=
  match s.phase with
  | .idle =>
    if active then
      ({ s with phase := .pressed, pressStart := now, secondTap := false }, [.press])
    else
      (s, [])
  | .pressed =>
    if active then
      if cfg.longPressMs ≤ now - s.pressStart then
        ({ s with phase := .pressedAwaitingRelease }, [.longPress])
      else
        (s, [])
    else
      if now - s.pressStart < cfg.longPressMs then
        if s.secondTap then
          ({ s with phase := .idle }, [.doubleTap])
        else
          ({ s with phase := .waitingForSecondTap, tapTime := now }, [.release])
      else
        ({ s with phase := .idle }, [.release])
  | .pressedAwaitingRelease =>
    if active then
      (s, [])
    else
      ({ s with phase := .idle }, [.release])
  | .waitingForSecondTap =>
    if active then
      if now - s.tapTime ≤ cfg.doubleTapWindowMs then
        ({ s with phase := .pressed, pressStart := now, secondTap := true }, [.press])
      else
        ({ s with phase := .pressed, pressStart := now, secondTap := false }, [.press])
    else
      if cfg.doubleTapWindowMs < now - s.tapTime then
        ({ s with phase := .idle }, [])
      else
        (s, [])

/-- Run the classifier over a trace of `(timestamp, debounced level)`
ticks, collecting the emitted gestures with their timestamps. -/
def classifyRun (cfg : InputTimingConfig) (s : ClassifierState) :
    List (Nat × Bool) → ClassifierState × List (Nat × Gesture)
  | [] => (s, [])
  | (t, a) :: rest =>
    let step := classifyStep cfg s t a
    let next := classifyRun cfg step.1 rest
    (next.1, step.2.map (fun g => (t, g)) ++ next.2)

/-- C1: two taps, each shorter than `longPressMs`, the second press
arriving within `doubleTapWindowMs` of the first release, emit exactly
`press`, `release`, `press`, `doubleTap` — one `doubleTap` and no plain
`release` for the second tap.  With the `setup()` configuration
(`longPressMs = 500`, `doubleTapWindowMs = 300`) this instantiates to
active@0, inactive@50, active@100, inactive@150 emitting Press@0,
Release@50, Press@100, DoubleTap@150 and no Release@150. -/
theorem doubleTap_two_short_taps (cfg : InputTimingConfig) (t1 t2 t3 t4 : Nat)
    (h1 : t2 - t1 < cfg.longPressMs)
    (h2 : t3 - t2 ≤ cfg.doubleTapWindowMs)
    (h3 : t4 - t3 < cfg.longPressMs) :
    classifyRun cfg initClassifier [(t1, true), (t2, false), (t3, true), (t4, false)] =
      (⟨.idle, t3, t2, true⟩,
        [(t1, .press), (t2, .release), (t3, .press), (t4, .doubleTap)]) := by
  have e1 : classifyStep cfg initClassifier t1 true =
      (⟨.pressed, t1, 0, false⟩, [.press]) := by
    simp [classifyStep, initClassifier]
  have e2 : classifyStep cfg ⟨.pressed, t1, 0, false⟩ t2 false =
      (⟨.waitingForSecondTap, t1, t2, false⟩, [.release]) := by
    simp [classifyStep, h1]
  have e3 : classifyStep cfg ⟨.waitingForSecondTap, t1, t2, false⟩ t3 true =
      (⟨.pressed, t3, t2, true⟩, [.press]) := by
    simp [classifyStep, h2]
  have e4 : classifyStep cfg ⟨.pressed, t3, t2, true⟩ t4 false =
      (⟨.idle, t3, t2, true⟩, [.doubleTap]) := by
    simp [classifyStep, h3]
  simp [classifyRun, e1, e2, e3, e4]

/-- C1 witness: the concrete scenario of the claim, under the `setup()`
configuration. -/
theorem doubleTap_two_short_taps_witness :
    50 - 0 < cfg0.longPressMs ∧ 100 - 50 ≤ cfg0.doubleTapWindowMs ∧
    150 - 100 < cfg0.longPressMs ∧
    classifyRun cfg0 initClassifier [(0, true), (50, false), (100, true), (150, false)] =
      (⟨.idle, 100, 50, true⟩,
        [(0, .press), (50, .release), (100, .press), (150, .doubleTap)]) :=
  ⟨by decide, by decide, by decide,
    doubleTap_two_short_taps cfg0 0 50 100 150 (by decide) (by decide) (by decide)⟩

/-- A single press shorter than `longPressMs`, followed by the
double-tap window expiring with no second press, emits exactly `press` at
the down edge and `release` at the up edge — no `longPress`, no
`doubleTap` — and the classifier is back to idle. -/
theorem single_short_tap (cfg : InputTimingConfig) (t1 t2 t3 : Nat)
    (h1 : t2 - t1 < cfg.longPressMs)
    (h2 : cfg.doubleTapWindowMs < t3 - t2) :
    classifyRun cfg initClassifier [(t1, true), (t2, false), (t3, false)] =
      (⟨.idle, t1, t2, false⟩, [(t1, .press), (t2, .release)]) := by
  have e1 : classifyStep cfg initClassifier t1 true =
      (⟨.pressed, t1, 0, false⟩, [.press]) := by
    simp [classifyStep, initClassifier]
  have e2 : classifyStep cfg ⟨.pressed, t1, 0, false⟩ t2 false =
      (⟨.waitingForSecondTap, t1, t2, false⟩, [.release]) := by
    simp [classifyStep, h1]
  have e3 : classifyStep cfg ⟨.waitingForSecondTap, t1, t2, false⟩ t3 false =
      (⟨.idle, t1, t2, false⟩, []) := by
    simp [classifyStep, h2, Nat.not_le.2 h2]
  simp [classifyRun, e1, e2, e3]

/-- The single-short-tap lemma instantiated at the 0/50 scenario under
the `setup()` configuration, sampling again at t=351 after the window
has expired. -/
theorem single_short_tap_at_0_50 :
    50 - 0 < cfg0.longPressMs ∧ cfg0.doubleTapWindowMs < 351 - 50 ∧
    classifyRun cfg0 initClassifier [(0, true), (50, false), (351, false)] =
      (⟨.idle, 0, 50, false⟩, [(0, .press), (50, .release)]) :=
  ⟨by decide, by decide, single_short_tap cfg0 0 50 351 (by decide) (by decide)⟩

/-- C5: a short press and release followed by a second press strictly
after `doubleTapWindowMs` has elapsed emits no `doubleTap` — each pair
yields its own independent `press` and `release` — and when the window
expires with no second press at all the classifier returns to idle
emitting no extra event. -/
theorem no_doubleTap_after_window (cfg : InputTimingConfig) (t1 t2 t3 t4 : Nat)
    (h1 : t2 - t1 < cfg.longPressMs)
    (h2 : cfg.doubleTapWindowMs < t3 - t2)
    (h3 : t4 - t3 < cfg.longPressMs) :
    classifyRun cfg initClassifier [(t1, true), (t2, false), (t3, true), (t4, false)] =
      (⟨.waitingForSecondTap, t3, t4, false⟩,
        [(t1, .press), (t2, .release), (t3, .press), (t4, .release)]) ∧
    classifyRun cfg initClassifier [(t1, true), (t2, false), (t3, false)] =
      (⟨.idle, t1, t2, false⟩, [(t1, .press), (t2, .release)]) := by
  have e1 : classifyStep cfg initClassifier t1 true =
      (⟨.pressed, t1, 0, false⟩, [.press]) := by
    simp [classifyStep, initClassifier]
  have e2 : classifyStep cfg ⟨.pressed, t1, 0, false⟩ t2 false =
      (⟨.waitingForSecondTap, t1, t2, false⟩, [.release]) := by
    simp [classifyStep, h1]
  have e3 : classifyStep cfg ⟨.waitingForSecondTap, t1, t2, false⟩ t3 true =
      (⟨.pressed, t3, t2, false⟩, [.press]) := by
    simp [classifyStep, Nat.not_le.2 h2]
  have e4 : classifyStep cfg ⟨.pressed, t3, t2, false⟩ t4 false =
      (⟨.waitingForSecondTap, t3, t4, false⟩, [.release]) := by
    simp [classifyStep, h3]
  have e3' : classifyStep cfg ⟨.waitingForSecondTap, t1, t2, false⟩ t3 false =
      (⟨.idle, t1, t2, false⟩, []) := by
    simp [classifyStep, h2, Nat.not_le.2 h2]
  exact ⟨by simp [classifyRun, e1, e2, e3, e4], by simp [classifyRun, e1, e2, e3']⟩

/-- C5 witness: press at 0, release at 50, second press at 400 — strictly
after the 300 ms window — released at 450, under the `setup()`
configuration. -/
theorem no_doubleTap_after_window_witness :
    50 - 0 < cfg0.longPressMs ∧ cfg0.doubleTapWindowMs < 400 - 50 ∧
    450 - 400 < cfg0.longPressMs ∧
    classifyRun cfg0 initClassifier [(0, true), (50, false), (400, true), (450, false)] =
      (⟨.waitingForSecondTap, 400, 450, false⟩,
        [(0, .press), (50, .release), (400, .press), (450, .release)]) :=
  ⟨by decide, by decide, by decide,
    (no_doubleTap_after_window cfg0 0 50 400 450 (by decide) (by decide) (by decide)).1⟩

/-- From `pressedAwaitingRelease`, a held (all-active) run of ticks emits
nothing and stays put: `longPress` cannot refire. -/
theorem classifyRun_awaiting_active (cfg : InputTimingConfig) :
    ∀ (ts : List Nat) (s : ClassifierState),
      s.phase = .pressedAwaitingRelease →
      classifyRun cfg s (ts.map (fun t => (t, true))) = (s, []) := by
  intro ts
  induction ts with
  | nil => intro s _; rfl
  | cons t rest ih =>
    intro s hs
    have hstep : classifyStep cfg s t true = (s, []) := by
      simp [classifyStep, hs]
    simp [classifyRun, hstep, ih s hs]

/-- From `pressed`, a held (all-active) run of ticks emits `longPress`
exactly at the first tick whose elapsed time since `pressStart` reaches
`longPressMs` — once if such a tick exists, never otherwise. -/
theorem classifyRun_pressed_active (cfg : InputTimingConfig) :
    ∀ (ts : List Nat) (ps tap : Nat) (sec : Bool),
      classifyRun cfg ⟨.pressed, ps, tap, sec⟩ (ts.map (fun t => (t, true))) =
        match ts.find? (fun t => decide (cfg.longPressMs ≤ t - ps)) with
        | some tL => (⟨.pressedAwaitingRelease, ps, tap, sec⟩, [(tL, .longPress)])
        | none => (⟨.pressed, ps, tap, sec⟩, []) := by
  intro ts
  induction ts with
  | nil => intro ps tap sec; rfl
  | cons t rest ih =>
    intro ps tap sec
    by_cases hL : cfg.longPressMs ≤ t - ps
    · have hstep : classifyStep cfg ⟨.pressed, ps, tap, sec⟩ t true =
          (⟨.pressedAwaitingRelease, ps, tap, sec⟩, [.longPress]) := by
        simp [classifyStep, hL]
      have hrest := classifyRun_awaiting_active cfg rest
        ⟨.pressedAwaitingRelease, ps, tap, sec⟩ rfl
      simp [classifyRun, hstep, hrest, List.find?, hL]
    · have hstep : classifyStep cfg ⟨.pressed, ps, tap, sec⟩ t true =
          (⟨.pressed, ps, tap, sec⟩, []) := by
        simp [classifyStep, hL]
      simp [classifyRun, hstep, ih ps tap sec, List.find?, hL]

/-- C2: a button held continuously active, pressed at `t0` and sampled at
the later instants `ts`, emits `press` at `t0` and then `longPress`
exactly once — at the first tick whose elapsed time since `t0` reaches
`longPressMs`, after which the classifier is in `pressedAwaitingRelease`
— and emits no `longPress` at all when no tick reaches that threshold. -/
theorem longPress_exactly_once (cfg : InputTimingConfig) (t0 : Nat) (ts : List Nat) :
    classifyRun cfg initClassifier ((t0 :: ts).map (fun t => (t, true))) =
      match ts.find? (fun t => decide (cfg.longPressMs ≤ t - t0)) with
      | some tL => (⟨.pressedAwaitingRelease, t0, 0, false⟩,
          [(t0, .press), (tL, .longPress)])
      | none => (⟨.pressed, t0, 0, false⟩, [(t0, .press)]) := by
  have e1 : classifyStep cfg initClassifier t0 true =
      (⟨.pressed, t0, 0, false⟩, [.press]) := by
    simp [classifyStep, initClassifier]
  have hrest := classifyRun_pressed_active cfg ts t0 0 false
  rcases hfind : ts.find? (fun t => decide (cfg.longPressMs ≤ t - t0)) with _ | tL <;>
    simp [classifyRun, e1, hrest, hfind]

/-- Whether a classifier phase corresponds to a physically held button. -/
def pressedPhase : Phase → Bool
  | .pressed => true
  | .pressedAwaitingRelease => true
  | .idle => false
  | .waitingForSecondTap => false

/-- C8: the steady-state tick path is total and error-free — `debStep`
and `classifyStep` are total functions over (state, input, time), and the
state they produce is always valid: the classifier's next phase agrees
with the level driving it (held phases exactly when the level is active),
the debounce filter's candidate level tracks the raw sample, and its
committed level is never invented — it is either the previous committed
level or the current raw level. -/
theorem tick_path_total_valid (cfg : InputTimingConfig) (D : Nat)
    (s : ClassifierState) (d : DebounceState) (now : Nat) (raw active : Bool) :
    pressedPhase (classifyStep cfg s now active).1.phase = active ∧
    (debStep D d now raw).lastRaw = raw ∧
    ((debStep D d now raw).debounced = d.debounced ∨
      (debStep D d now raw).debounced = raw) := by
  obtain ⟨ph, ps, tap, sec⟩ := s
  obtain ⟨lr, ct, db⟩ := d
  refine ⟨?_, ?_, ?_⟩
  · cases active <;> cases ph <;>
      simp only [classifyStep] <;>
      first
        | rfl
        | (split_ifs <;> first | rfl | simp_all)
  · simp only [debStep]
    split_ifs <;> simp_all
  · simp only [debStep]
    split_ifs <;> simp_all

/-- C3: `press` and `release` are always emitted for the physical down
and up edges.  On every rising edge — the classifier in an un-pressed
phase and the debounced level active — exactly `press` is emitted,
whatever the state's history and timing; on every falling edge — a
pressed phase and the level inactive — exactly `release` is emitted
(this covers the up edge of a long press, from `pressedAwaitingRelease`,
and the first tap of a double tap), with the single exception the spec
carves out: the short release completing the second tap of a double tap,
where exactly `doubleTap` replaces the plain `release`.  In particular,
under the `setup()` configuration (debounce 5 ms, `longPressMs = 500`,
`doubleTapWindowMs = 300`), stable-active@0 then stable-inactive@50
emits exactly Press@0 and Release@50 — no `longPress`, no `doubleTap`. -/
theorem press_release_at_edges (cfg : InputTimingConfig) (s : ClassifierState)
    (now : Nat) (active : Bool) :
    (pressedPhase s.phase = false → active = true →
      (classifyStep cfg s now active).2 = [.press]) ∧
    (pressedPhase s.phase = true → active = false →
      ((s.phase = .pressed ∧ s.secondTap = true ∧
          now - s.pressStart < cfg.longPressMs) →
        (classifyStep cfg s now active).2 = [.doubleTap]) ∧
      (¬(s.phase = .pressed ∧ s.secondTap = true ∧
          now - s.pressStart < cfg.longPressMs) →
        (classifyStep cfg s now active).2 = [.release])) ∧
    classifyRun cfg0 initClassifier [(0, true), (50, false)] =
      (⟨.waitingForSecondTap, 0, 50, false⟩, [(0, .press), (50, .release)]) := by
  obtain ⟨ph, ps, tap, sec⟩ := s
  refine ⟨?_, ?_, by decide⟩
  · cases ph with
    | idle =>
      intro _ ha
      subst ha
      simp [classifyStep]
    | pressed =>
      intro hp _
      simp [pressedPhase] at hp
    | pressedAwaitingRelease =>
      intro hp _
      simp [pressedPhase] at hp
    | waitingForSecondTap =>
      intro _ ha
      subst ha
      simp only [classifyStep]
      split_ifs <;> simp_all
  · cases ph with
    | idle =>
      intro hp _
      simp [pressedPhase] at hp
    | waitingForSecondTap =>
      intro hp _
      simp [pressedPhase] at hp
    | pressed =>
      intro _ ha
      subst ha
      constructor
      · rintro ⟨-, hsec, hshort⟩
        simp only at hsec
        subst hsec
        simp [classifyStep, hshort]
      · intro hn
        by_cases hshort : now - ps < cfg.longPressMs
        · cases sec with
          | false => simp [classifyStep, hshort]
          | true => exact absurd ⟨rfl, rfl, hshort⟩ hn
        · simp [classifyStep, hshort]
    | pressedAwaitingRelease =>
      intro _ ha
      subst ha
      constructor
      · rintro ⟨h, -⟩
        exact absurd h (by simp)
      · intro _
        simp [classifyStep]

/-- C3 witness: a concrete rising edge (idle, level active at t=0) emits
exactly `press`, and a concrete falling edge (pressed since t=0 with no
pending tap, level inactive at t=50) emits exactly `release`, under the
`setup()` configuration. -/
theorem press_release_at_edges_witness :
    pressedPhase (⟨.idle, 0, 0, false⟩ : ClassifierState).phase = false ∧
    (classifyStep cfg0 ⟨.idle, 0, 0, false⟩ 0 true).2 = [.press] ∧
    pressedPhase (⟨.pressed, 0, 0, false⟩ : ClassifierState).phase = true ∧
    ¬((⟨.pressed, 0, 0, false⟩ : ClassifierState).phase = .pressed ∧
        (⟨.pressed, 0, 0, false⟩ : ClassifierState).secondTap = true ∧
        50 - (⟨.pressed, 0, 0, false⟩ : ClassifierState).pressStart <
          cfg0.longPressMs) ∧
    (classifyStep cfg0 ⟨.pressed, 0, 0, false⟩ 50 false).2 = [.release] :=
  ⟨by decide,
    (press_release_at_edges cfg0 ⟨.idle, 0, 0, false⟩ 0 true).1 (by decide) rfl,
    by decide,
    by decide,
    ((press_release_at_edges cfg0 ⟨.pressed, 0, 0, false⟩ 50 false).2.1
      (by decide) rfl).2 (by decide)⟩

-- ═══════════════════════════════════════════════════════════════════════
-- Binding registry, fluent API and dispatch (spec sections 4.3 and 4.5)
-- ═══════════════════════════════════════════════════════════════════════

/-- Modelled from the spec: an input binding (section 3) — button
identifier, gesture kind, optional duration parameter for
`longPress`/`doubleTap`, and the registered action. -/
structure InputBinding (α : Type) where
  button : Nat
  kind : Gesture
  durationMs : Option Nat
  action : α

/-- A gesture event: button identifier plus gesture kind (section 3). -/
structure GestureEvent where
  button : Nat
  kind : Gesture
deriving DecidableEq, Repr

/-- Modelled from the spec: whether a binding matches a dispatched
gesture event — same button identifier and same gesture kind. -/
def matchesEvent {α : Type} (b : InputBinding α) (e : GestureEvent) : Bool :=
  b.button == e.button && b.kind == e.kind

/-- Modelled from the spec: dispatch of one gesture event (section 4.5)
— the actions of all matching bindings, in registration order. -/
def dispatchList {α : Type} (reg : List (InputBinding α)) (e : GestureEvent) : List α :=
  (reg.filter (fun b => matchesEvent b e)).map (fun b => b.action)

/-- Modelled from the spec: the fluent builder stage produced by
`onButton`, scoped to one button identifier (section 4.3). -/
structure ButtonBuilder (α : Type) where
  reg : List (InputBinding α)
  id : Nat

/-- Modelled from the spec: the fluent builder stage scoped to a
(button, gesture kind) pair, optionally parameterized by a duration. -/
structure GestureBuilder (α : Type) where
  reg : List (InputBinding α)
  id : Nat
  kind : Gesture
  durationMs : Option Nat

/-- `onButton(id)` over an explicit registry (the C++ method mutates the
owning context's registry; here the registry is passed explicitly). -/
def onButton {α : Type} (reg : List (InputBinding α)) (i : Nat) : ButtonBuilder α :=
  ⟨reg, i⟩

/-- `.press()` of the fluent API. -/
def ButtonBuilder.press {α : Type} (b : ButtonBuilder α) : GestureBuilder α :=
  ⟨b.reg, b.id, .press, none⟩

/-- `.release()` of the fluent API. -/
def ButtonBuilder.release {α : Type} (b : ButtonBuilder α) : GestureBuilder α :=
  ⟨b.reg, b.id, .release, none⟩

/-- `.longPress(ms)` of the fluent API. -/
def ButtonBuilder.longPress {α : Type} (b : ButtonBuilder α) (ms : Nat) : GestureBuilder α :=
  ⟨b.reg, b.id, .longPress, some ms⟩

/-- `.doubleTap(ms)` of the fluent API. -/
def ButtonBuilder.doubleTap {α : Type} (b : ButtonBuilder α) (ms : Nat) : GestureBuilder α :=
  ⟨b.reg, b.id, .doubleTap, some ms⟩

/-- `.then(action)` of the fluent API (`then` is reserved in Lean):
append the assembled binding to the registry, preserving insertion
order. -/
def GestureBuilder.thenDo {α : Type} (g : GestureBuilder α) (a : α) : List (InputBinding α) :=
  g.reg ++ [⟨g.id, g.kind, g.durationMs, a⟩]

/-- C6: binding dispatch is order-preserving.  For a registry built by
registering `A` and then `B` — with any other bindings before, between
and after them — dispatching an event matched by both invokes the
segments in registration order, so `A`'s action runs before `B`'s on
every matching dispatch, and all matching actions fire in registration
order. -/
theorem dispatch_order_preserving {α : Type}
    (pre mid post : List (InputBinding α)) (A B : InputBinding α) (e : GestureEvent)
    (hA : matchesEvent A e = true) (hB : matchesEvent B e = true) :
    dispatchList (pre ++ [A] ++ mid ++ [B] ++ post) e =
      dispatchList pre e ++ [A.action] ++ dispatchList mid e ++ [B.action] ++
        dispatchList post e := by
  simp [dispatchList, List.filter_append, hA, hB]

/-- C6 witness: two bindings on (button 1, press) around unrelated ones,
with `Nat` actions, dispatch in registration order. -/
theorem dispatch_order_preserving_witness :
    matchesEvent (⟨1, .press, none, 10⟩ : InputBinding Nat) ⟨1, .press⟩ = true ∧
    matchesEvent (⟨1, .press, none, 20⟩ : InputBinding Nat) ⟨1, .press⟩ = true ∧
    dispatchList
      ([⟨2, .press, none, 0⟩] ++ [⟨1, .press, none, 10⟩] ++ [⟨1, .release, none, 1⟩] ++
        [⟨1, .press, none, 20⟩] ++ [⟨2, .doubleTap, some 300, 2⟩]) ⟨1, .press⟩ =
      dispatchList [(⟨2, .press, none, 0⟩ : InputBinding Nat)] ⟨1, .press⟩ ++ [10] ++
        dispatchList [(⟨1, .release, none, 1⟩ : InputBinding Nat)] ⟨1, .press⟩ ++ [20] ++
        dispatchList [(⟨2, .doubleTap, some 300, 2⟩ : InputBinding Nat)] ⟨1, .press⟩ :=
  ⟨by decide, by decide,
    dispatch_order_preserving [⟨2, .press, none, 0⟩] [⟨1, .release, none, 1⟩]
      [⟨2, .doubleTap, some 300, 2⟩] ⟨1, .press, none, 10⟩ ⟨1, .press, none, 20⟩
      ⟨1, .press⟩ (by decide) (by decide)⟩

-- ═══════════════════════════════════════════════════════════════════════
-- Requirements and the capability gate (spec section 4.4)
-- ═══════════════════════════════════════════════════════════════════════

/-- The capability flags a context declares (oc/context/Requirements). -/
structure Requirements where
  button : Bool
  encoder : Bool
  midi : Bool
deriving DecidableEq, Repr

/-- From src/main.cpp: `MainContext::REQUIRES` — button and MIDI
required, encoder not. -/
def MainContext.REQUIRES : Requirements :=
  ⟨true, false, true⟩

/-- The hardware capabilities configured through `AppBuilder`. -/
structure Capabilities where
  button : Bool
  encoder : Bool
  midi : Bool
deriving DecidableEq, Repr

/-- Modelled from the spec: the capability gate (section 4.4) — context
registration succeeds exactly when every declared requirement flag is
satisfied by the configured hardware; checked once at registration. -/
def checkRequirements (req : Requirements) (caps : Capabilities) : Bool :=
  (!req.button || caps.button) && (!req.encoder || caps.encoder) && (!req.midi || caps.midi)

/-- C7: the capability gate fails exactly when a declared requirement
flag is unsatisfied by the configured hardware; in particular, for
`MainContext::REQUIRES` on any hardware with button input configured (as
`setup()` configures), registration fails if and only if no MIDI
capability is configured, independent of the encoder flag. -/
theorem capability_gate_midi (caps : Capabilities) (hb : caps.button = true) :
    (checkRequirements MainContext.REQUIRES caps = false ↔ caps.midi = false) ∧
    (∀ (req : Requirements) (c : Capabilities),
      checkRequirements req c = true ↔
        ((req.button = true → c.button = true) ∧
          (req.encoder = true → c.encoder = true) ∧
          (req.midi = true → c.midi = true))) := by
  constructor
  · obtain ⟨b, e, m⟩ := caps
    simp only at hb
    subst hb
    cases e <;> cases m <;> decide
  · intro req c
    obtain ⟨rb, re, rm⟩ := req
    obtain ⟨cb, ce, cm⟩ := c
    cases rb <;> cases re <;> cases rm <;> cases cb <;> cases ce <;> cases cm <;> decide

/-- C7 witness: hardware with buttons and an encoder but no MIDI
configured — registration of `MainContext` fails, and the general
characterization instantiated at that pair. -/
theorem capability_gate_midi_witness :
    (⟨true, true, false⟩ : Capabilities).button = true ∧
    (checkRequirements MainContext.REQUIRES ⟨true, true, false⟩ = false ↔
      (⟨true, true, false⟩ : Capabilities).midi = false) :=
  ⟨rfl, (capability_gate_midi ⟨true, true, false⟩ rfl).1⟩

-- ═══════════════════════════════════════════════════════════════════════
-- MainContext bindings and actions, from src/main.cpp
-- ═══════════════════════════════════════════════════════════════════════

/-- A MIDI control-change message as handed to `midi().sendCC(channel,
controller, value)` (spec section 6: channel, controller number, 0-127
value, no acknowledgement). -/
structure MidiMessage where
  channel : Nat
  controller : Nat
  value : Nat
deriving DecidableEq, Repr

/-- The mutable state of `MainContext`: its single `toggle_` member. -/
structure ContextState where
  toggle : Bool
deriving DecidableEq, Repr

/-- An action captures the context; running it yields the updated
context state and the MIDI messages it sent (serial prints are not
modelled). -/
abbrev Action : Type := ContextState → ContextState × List MidiMessage

/-- Button 1 press action: `sendCC(MIDI_CHANNEL, BUTTON1_CC, 127)`. -/
def button1PressAction : Action := fun s =>
  (s, [⟨Config.MIDI_CHANNEL, Config.BUTTON1_CC, 127⟩])

/-- Button 1 release action: `sendCC(MIDI_CHANNEL, BUTTON1_CC, 0)`. -/
def button1ReleaseAction : Action := fun s =>
  (s, [⟨Config.MIDI_CHANNEL, Config.BUTTON1_CC, 0⟩])

/-- Button 1 long-press action: a serial print only, no MIDI output. -/
def button1LongPressAction : Action := fun s =>
  (s, [])

/-- Button 2 press action: flip `toggle_` and send 127 or 0 on
`BUTTON2_CC` accordingly. -/
def button2PressAction : Action := fun s =>
  let t := !s.toggle
  (⟨t⟩, [⟨Config.MIDI_CHANNEL, Config.BUTTON2_CC, if t then 127 else 0⟩])

/-- Button 2 double-tap action: reset `toggle_` to false and send 0 on
`BUTTON2_CC`. -/
def button2DoubleTapAction : Action := fun _ =>
  (⟨false⟩, [⟨Config.MIDI_CHANNEL, Config.BUTTON2_CC, 0⟩])

/-- The registry `MainContext::initialize` builds through the fluent
API, in the source's registration order. -/
def mainRegistry : List (InputBinding Action) :=
  let r0 : List (InputBinding Action) := []
  let r1 := ((onButton r0 1).press).thenDo button1PressAction
  let r2 := ((onButton r1 1).release).thenDo button1ReleaseAction
  let r3 := ((onButton r2 1).longPress Config.LONG_PRESS_MS).thenDo button1LongPressAction
  let r4 := ((onButton r3 2).press).thenDo button2PressAction
  ((onButton r4 2).doubleTap Config.DOUBLE_TAP_MS).thenDo button2DoubleTapAction

/-- The fluent construction of `mainRegistry` produces exactly the five
bindings of `MainContext::initialize`, in registration order. -/
theorem mainRegistry_eq :
    mainRegistry =
      [⟨1, .press, none, button1PressAction⟩,
        ⟨1, .release, none, button1ReleaseAction⟩,
        ⟨1, .longPress, some Config.LONG_PRESS_MS, button1LongPressAction⟩,
        ⟨2, .press, none, button2PressAction⟩,
        ⟨2, .doubleTap, some Config.DOUBLE_TAP_MS, button2DoubleTapAction⟩] := rfl

/-- C9: every MIDI control-change message any registered action sends,
from any context state, uses channel 0 (`MIDI_CHANNEL`), carries a value
that is 0 or 127 and never anything in between, and addresses controller
20 (`BUTTON1_CC`) from a button-1 binding and controller 21
(`BUTTON2_CC`) from a button-2 binding. -/
theorem registered_actions_midi_invariant (b : InputBinding Action)
    (s : ContextState) (m : MidiMessage)
    (hb : b ∈ mainRegistry) (hm : m ∈ (b.action s).2) :
    m.channel = Config.MIDI_CHANNEL ∧ (m.value = 0 ∨ m.value = 127) ∧
    m.controller = (if b.button = 1 then Config.BUTTON1_CC else Config.BUTTON2_CC) := by
  obtain ⟨tg⟩ := s
  rw [mainRegistry_eq] at hb
  simp only [List.mem_cons, List.not_mem_nil, or_false] at hb
  rcases hb with hb | hb | hb | hb | hb <;> subst hb <;> cases tg <;>
    simp_all [button1PressAction, button1ReleaseAction, button1LongPressAction,
      button2PressAction, button2DoubleTapAction,
      Config.MIDI_CHANNEL, Config.BUTTON1_CC, Config.BUTTON2_CC]

/-- C9 witness: the button-1 press binding, from toggle-off state, sends
`(MIDI_CHANNEL, BUTTON1_CC, 127)` and the invariant holds of it. -/
theorem registered_actions_midi_invariant_witness :
    (⟨1, .press, none, button1PressAction⟩ : InputBinding Action) ∈ mainRegistry ∧
    (⟨Config.MIDI_CHANNEL, Config.BUTTON1_CC, 127⟩ : MidiMessage) ∈
      ((⟨1, .press, none, button1PressAction⟩ : InputBinding Action).action ⟨false⟩).2 ∧
    ((⟨Config.MIDI_CHANNEL, Config.BUTTON1_CC, 127⟩ : MidiMessage).channel =
        Config.MIDI_CHANNEL ∧
      ((⟨Config.MIDI_CHANNEL, Config.BUTTON1_CC, 127⟩ : MidiMessage).value = 0 ∨
        (⟨Config.MIDI_CHANNEL, Config.BUTTON1_CC, 127⟩ : MidiMessage).value = 127) ∧
      (⟨Config.MIDI_CHANNEL, Config.BUTTON1_CC, 127⟩ : MidiMessage).controller =
        (if (⟨1, .press, none, button1PressAction⟩ : InputBinding Action).button = 1
          then Config.BUTTON1_CC else Config.BUTTON2_CC)) :=
  ⟨by simp [mainRegistry_eq], by simp [button1PressAction],
    registered_actions_midi_invariant ⟨1, .press, none, button1PressAction⟩ ⟨false⟩
      ⟨Config.MIDI_CHANNEL, Config.BUTTON1_CC, 127⟩
      (by simp [mainRegistry_eq]) (by simp [button1PressAction])⟩

/-- C10: the button-2 double-tap action is idempotent on the context
state — running it twice from any toggle state ends in the same context
state as running it once — and in both runs the toggle flag ends false
and the (only, hence last) message sent on controller `BUTTON2_CC` = 21
carries value 0. -/
theorem doubleTap_action_idempotent (s : ContextState) :
    (button2DoubleTapAction (button2DoubleTapAction s).1).1 =
      (button2DoubleTapAction s).1 ∧
    ((button2DoubleTapAction s).1).toggle = false ∧
    (button2DoubleTapAction s).2 = [⟨Config.MIDI_CHANNEL, Config.BUTTON2_CC, 0⟩] ∧
    (button2DoubleTapAction (button2DoubleTapAction s).1).2 =
      [⟨Config.MIDI_CHANNEL, Config.BUTTON2_CC, 0⟩] := by
  simp [button2DoubleTapAction]

end OCButtons
